import Mathlib

/-!
Shallow embedding of `src/biblioteca/app/models.py` (a Django library-management
data layer) and verification of its specified counter-maintenance behaviour.

Conventions of the embedding:
* Dates are modelled as integers (a day number); `hoy` ("today") is passed
  explicitly to the operations that read the current date.
* Django `NULL`-able fields become `Option`; a foreign key is the key value.
* `Libro.cant_ej` / `Libro.remanente` are `Int` (Django `IntegerField`).
* Python `str.isdigit` is true of a non-empty string all of whose characters
  have Unicode `Numeric_Type` Decimal or Digit — this includes non-ASCII
  characters such as the superscript two, which are not decimal digits.
  `py_char_isdigit` models the character predicate on the ASCII decimal
  digits and the principal non-ASCII digit ranges (superscripts, subscripts,
  Arabic-Indic, extended Arabic-Indic, Devanagari); the further Unicode
  digit ranges Python accepts behave exactly like the non-ASCII ranges
  included and are omitted.
* The Django signal receivers `cant_ejemp_disp` (post_save / post_delete of
  `Ejemplar`) and `act_prestamo` (post_save of `Prestamo`) become pure
  functions from the old `Libro` row to the new one; the `created` kwarg and
  the identity of the signal are explicit boolean parameters.
-/

namespace Biblioteca

/-- The `Libro` row: primary key `isbn`, title, page count, and the two
derived counters `cant_ej` (total copies) and `remanente` (available copies).
Both counters default to 0 on a fresh row. -/
structure Libro where
  isbn : String
  titulo : String
  cant_pag : Int
  cant_ej : Int
  remanente : Int
  deriving DecidableEq, Repr

/-- A freshly created `Libro` row: `cant_ej` and `remanente` take their
model-field defaults, both 0. -/
def freshLibro (isbn titulo : String) (cant_pag : Int) : Libro :=
  { isbn := isbn, titulo := titulo, cant_pag := cant_pag, cant_ej := 0, remanente := 0 }

/-- The character predicate behind Python `str.isdigit`: true on characters
with Unicode `Numeric_Type` Decimal or Digit. Covered here: the ASCII
decimal digits `0`-`9`, the superscript digits (`¹` `²` `³` and `⁰` `⁴`-`⁹`),
the subscript digits `₀`-`₉`, the Arabic-Indic digits `٠`-`٩`, the extended
Arabic-Indic digits `۰`-`۹`, and the Devanagari digits `०`-`९`; the remaining
Unicode digit ranges Python accepts behave like these and are omitted. -/
def py_char_isdigit (c : Char) : Bool :=
  (0x30 ≤ c.toNat && c.toNat ≤ 0x39) ||
  (c.toNat == 0xB2 || c.toNat == 0xB3 || c.toNat == 0xB9) ||
  (c.toNat == 0x2070 || (0x2074 ≤ c.toNat && c.toNat ≤ 0x2079)) ||
  (0x2080 ≤ c.toNat && c.toNat ≤ 0x2089) ||
  (0x660 ≤ c.toNat && c.toNat ≤ 0x669) ||
  (0x6F0 ≤ c.toNat && c.toNat ≤ 0x6F9) ||
  (0x966 ≤ c.toNat && c.toNat ≤ 0x96F)

/-- Python `value.isdigit()`: true iff the string is non-empty and every
character satisfies `py_char_isdigit`. -/
def str_isdigit (value : String) : Bool :=
  value.length != 0 && value.data.all py_char_isdigit

/-- Embedding of `Libro.validate_isbn13`: raises `ValidationError` (returned as `some`
message) when the value does not have exactly 13 characters or is not all
digits; accepts (returns `none`) otherwise. The message embeds the offending
value, as the f-string in the source does. -/
def validate_isbn13 (value : String) : Option String :=
  if value.length != 13 || !(str_isdigit value) then
    some ("El ISBN debe contener exactamente 13 dígitos. \"" ++ value ++ "\" no es válido.")
  else
    none

/-- The `Ejemplar` (copy) row: auto primary key (absent before the first
insert), the owning book's key, and the per-book copy number. -/
structure Ejemplar where
  pk : Option Nat
  libro : String
  nro_ejemplar : Int
  deriving DecidableEq, Repr

/-- Embedding of `aggregate(Max("nro_ejemplar", default=0))` over the owning book's
existing copies: the maximum copy number, or 0 when the book has no copies. -/
def aggregateMaxNro (existing : List Int) : Int :=
  (existing.max?).getD 0

/-- Embedding of `Ejemplar.save`: when the row has no primary key yet (an insert), the
copy number is recomputed as the book's current maximum copy number plus 1,
overwriting whatever the caller supplied; on an update the row is saved
as-is. `existing` is the list of `nro_ejemplar` values of the book's copies
at save time. -/
def Ejemplar.save (existing : List Int) (e : Ejemplar) : Ejemplar :=
  if e.pk.isNone then
    { e with nro_ejemplar := aggregateMaxNro existing + 1 }
  else
    e

/-- The signal receiver `cant_ejemp_disp`, registered for `post_save` and
`post_delete` of `Ejemplar`. `creado` is the `created` kwarg (absent, hence
false, on delete); `isPostDelete` tells whether the delivering signal is
`post_delete`. On creation both counters gain 1; on deletion both lose 1;
on a plain update nothing changes. Only `cant_ej` and `remanente` are
written back (`update_fields`). -/
def cant_ejemp_disp (creado : Bool) (isPostDelete : Bool) (libro : Libro) : Libro :=
  if creado then
    { libro with cant_ej := libro.cant_ej + 1, remanente := libro.remanente + 1 }
  else if isPostDelete then
    { libro with cant_ej := libro.cant_ej - 1, remanente := libro.remanente - 1 }
  else
    libro

/-- Creating an `Ejemplar`: `Ejemplar.save` on a row without a primary key,
followed by the `post_save` signal with `created=True` updating the book. -/
def createEjemplar (existing : List Int) (e : Ejemplar) (libro : Libro) :
    Ejemplar × Libro :=
  let e' := Ejemplar.save existing e
  (e', cant_ejemp_disp true false libro)

/-- Deleting an `Ejemplar`: the `post_delete` signal (no `created` kwarg)
updating the book. -/
def deleteEjemplar (libro : Libro) : Libro :=
  cant_ejemp_disp false true libro

/-- The singleton `Configuracion` row: maximum return period in days and
maximum number of active loans. -/
structure Configuracion where
  plazo_max_devolucion : Int
  cant_max_prest_act : Int
  deriving DecidableEq, Repr

/-- The `Prestamo` (loan) row: the copy, the member, the issuing librarian,
the optional receiving librarian, the due date and the optional return
date. -/
structure Prestamo where
  ejemplar : Nat
  socio : Nat
  entrego : Nat
  recibio : Option Nat
  fecha_max_dev : Option Int
  fecha_dev : Option Int
  deriving DecidableEq, Repr

/-- Embedding of `Prestamo.save` (the instance-method part, before the `post_save`
signal): if no due date is set, it becomes today plus the configuration's
`plazo_max_devolucion`; then, if a receiving librarian is present and no
return date is set, the return date becomes today. -/
def Prestamo.save (hoy : Int) (configuracion : Configuracion) (p : Prestamo) : Prestamo :=
  let p1 :=
    if p.fecha_max_dev.isNone then
      { p with fecha_max_dev := some (hoy + configuracion.plazo_max_devolucion) }
    else p
  if p1.recibio.isSome && p1.fecha_dev.isNone then
    { p1 with fecha_dev := some hoy }
  else p1

/-- The signal receiver `act_prestamo`, registered for `post_save` of
`Prestamo`. On a creating save the book loses one available copy; otherwise,
whenever the instance has a return date, the book gains one available copy.
`fecha_dev` is the saved instance's return date. -/
def act_prestamo (creado : Bool) (fecha_dev : Option Int) (libro : Libro) : Libro :=
  if creado then
    { libro with remanente := libro.remanente - 1 }
  else if fecha_dev.isSome then
    { libro with remanente := libro.remanente + 1 }
  else
    libro

/-- Creating a `Prestamo`: `Prestamo.save`, then the `post_save` signal with
`created=True`. -/
def createPrestamo (hoy : Int) (cfg : Configuracion) (p : Prestamo) (libro : Libro) :
    Prestamo × Libro :=
  let p' := Prestamo.save hoy cfg p
  (p', act_prestamo true p'.fecha_dev libro)

/-- Saving an existing `Prestamo`: `Prestamo.save`, then the `post_save`
signal with `created=False`. -/
def updatePrestamo (hoy : Int) (cfg : Configuracion) (p : Prestamo) (libro : Libro) :
    Prestamo × Libro :=
  let p' := Prestamo.save hoy cfg p
  (p', act_prestamo false p'.fecha_dev libro)

/-- Iterate `n` repeated non-creating saves of the same loan row. -/
def iterSaves (hoy : Int) (cfg : Configuracion) (n : Nat) (p : Prestamo) (libro : Libro) :
    Prestamo × Libro :=
  match n with
  | 0 => (p, libro)
  | Nat.succ m =>
      let r := iterSaves hoy cfg m p libro
      updatePrestamo hoy cfg r.1 r.2

/-!
A state machine over one book, for reasoning about whole sequences of copy
and loan lifecycle events. Each operation applies the corresponding source
function(s) to the `Libro` row; `activos` and `devueltos` are ghost counters
of unreturned and returned loans used to state realizability side conditions.
-/

/-- One book together with ghost counts of its unreturned (`activos`) and
returned (`devueltos`) loans. -/
structure LibState where
  libro : Libro
  activos : Nat
  devueltos : Nat
  deriving DecidableEq, Repr

/-- The copy/loan lifecycle events that touch a book's counters:
copy creation and deletion, loan creation, the save that returns a loan
(receiving librarian present, no return date yet), a further save of an
already-returned loan, and a save of an unreturned loan with no receiving
librarian (a no-op for the counters). -/
inductive Op where
  | createCopy
  | deleteCopy
  | createLoan
  | returnSave
  | resaveReturned
  | plainSave
  deriving DecidableEq, Repr

/-- Apply one lifecycle event: each branch invokes the signal receiver the
source runs for that event (`cant_ejemp_disp` for copies, `act_prestamo`
for loans), with the arguments that event produces. -/
def applyOp (hoy : Int) (op : Op) (s : LibState) : LibState :=
  match op with
  | Op.createCopy => { s with libro := cant_ejemp_disp true false s.libro }
  | Op.deleteCopy => { s with libro := cant_ejemp_disp false true s.libro }
  | Op.createLoan =>
      { s with libro := act_prestamo true none s.libro, activos := s.activos + 1 }
  | Op.returnSave =>
      { s with libro := act_prestamo false (some hoy) s.libro,
               activos := s.activos - 1, devueltos := s.devueltos + 1 }
  | Op.resaveReturned => { s with libro := act_prestamo false (some hoy) s.libro }
  | Op.plainSave => { s with libro := act_prestamo false none s.libro }

/-- Run a sequence of lifecycle events from a state. -/
def runOps (hoy : Int) (ops : List Op) (s : LibState) : LibState :=
  match ops with
  | [] => s
  | op :: rest => runOps hoy rest (applyOp hoy op s)

/-- Guards under which an event is performed: a loan is only created while
an available copy exists, a copy is only deleted while an available copy
exists, a returning save requires an unreturned loan, and a returned loan
is never saved again. -/
def allowedOp (op : Op) (s : LibState) : Bool :=
  match op with
  | Op.createCopy => true
  | Op.deleteCopy => decide (0 < s.libro.remanente)
  | Op.createLoan => decide (0 < s.libro.remanente)
  | Op.returnSave => decide (0 < s.activos)
  | Op.resaveReturned => false
  | Op.plainSave => true

/-- A whole trace respects the guards along the way. -/
def allowedTrace (hoy : Int) (ops : List Op) (s : LibState) : Bool :=
  match ops with
  | [] => true
  | op :: rest => allowedOp op s && allowedTrace hoy rest (applyOp hoy op s)

/-- The book-counter invariant: available copies are non-negative and do
not exceed total copies. -/
def counterInv (s : LibState) : Prop :=
  0 ≤ s.libro.remanente ∧ s.libro.remanente ≤ s.libro.cant_ej

/-- Strengthened invariant used for the induction: the available count plus
the number of unreturned loans equals the total count, and the available
count is non-negative. -/
def ghostInv (s : LibState) : Prop :=
  s.libro.remanente + (s.activos : Int) = s.libro.cant_ej ∧ 0 ≤ s.libro.remanente

instance (s : LibState) : Decidable (counterInv s) := by
  unfold counterInv; infer_instance

instance (s : LibState) : Decidable (ghostInv s) := by
  unfold ghostInv; infer_instance

/-- The state of a book fresh from `freshLibro`, with no loans. -/
def initState (isbn titulo : String) (cant_pag : Int) : LibState :=
  { libro := freshLibro isbn titulo cant_pag, activos := 0, devueltos := 0 }

/-! Concrete sample rows used to instantiate the theorems. -/

/-- A configuration row with a three-day return period (the field default). -/
def cfg3 : Configuracion := ⟨3, 3⟩

/-- A book row with 3 copies, 2 of them available. -/
def libroSample : Libro := ⟨"9780306406157", "Titulo", 100, 3, 2⟩

/-- An open loan: receiving librarian present, due date set, no return date. -/
def prestamoOpenRecibido : Prestamo := ⟨1, 1, 1, some 2, some 20, none⟩

/-- A loan that has already been returned (return date set). -/
def prestamoReturned : Prestamo := ⟨1, 1, 1, some 2, some 20, some 5⟩

/-- A fresh loan row as built before a creating save: nothing optional set. -/
def prestamoFresh : Prestamo := ⟨1, 1, 1, none, none, none⟩

/-- A fresh loan row with an explicit due date supplied. -/
def prestamoFreshDated : Prestamo := ⟨1, 1, 1, none, some 99, none⟩

/-! Helper lemmas shared by the development. -/

/-- Saving a loan never changes an already-set return date. -/
theorem Prestamo.save_fecha_dev_of_isSome (hoy : Int) (cfg : Configuracion)
    (p : Prestamo) (h : p.fecha_dev.isSome = true) :
    (Prestamo.save hoy cfg p).fecha_dev = p.fecha_dev := by
  obtain ⟨d, hd⟩ := Option.isSome_iff_exists.mp h
  unfold Prestamo.save
  by_cases hmax : p.fecha_max_dev.isNone <;> simp [hmax, hd]

/-- Saving a loan never changes an already-set due date. -/
theorem Prestamo.save_fecha_max_dev_of_isSome (hoy : Int) (cfg : Configuracion)
    (p : Prestamo) (h : p.fecha_max_dev.isSome = true) :
    (Prestamo.save hoy cfg p).fecha_max_dev = p.fecha_max_dev := by
  unfold Prestamo.save
  have hmax : p.fecha_max_dev.isNone = false := by
    cases hp : p.fecha_max_dev <;> simp_all
  by_cases hc : p.recibio.isSome && p.fecha_dev.isNone <;> simp [hmax, hc]

/-! Theorems settling the claims. -/

/-- C3: creating a Copy increments the parent Book's `cant_ej` and
`remanente` by 1, deleting a Copy decrements both by 1, and in both cases
every other field of the Book row is left unchanged. -/
theorem C3_copy_counters (existing : List Int) (e : Ejemplar) (libro : Libro) :
    (createEjemplar existing e libro).2 =
      { libro with cant_ej := libro.cant_ej + 1, remanente := libro.remanente + 1 } ∧
    deleteEjemplar libro =
      { libro with cant_ej := libro.cant_ej - 1, remanente := libro.remanente - 1 } := by
  constructor <;> rfl

/-- C4: a creating save of a Loan decrements the Book's `remanente` by
exactly 1, unconditionally: no precondition on `remanente` (or anything
else) is checked, for any book row whatsoever. -/
theorem C4_loan_creation_decrements (hoy : Int) (cfg : Configuracion)
    (p : Prestamo) (libro : Libro) :
    (createPrestamo hoy cfg p libro).2 =
      { libro with remanente := libro.remanente - 1 } := by
  rfl

/-- C6: a Loan saved with no due date gets due date = today plus the
configuration's `plazo_max_devolucion` read at save time; a Loan saved with
a due date already set keeps it unchanged. -/
theorem C6_due_date (hoy : Int) (cfg : Configuracion) (p : Prestamo) :
    (p.fecha_max_dev = none →
      (Prestamo.save hoy cfg p).fecha_max_dev = some (hoy + cfg.plazo_max_devolucion)) ∧
    (∀ d : Int, p.fecha_max_dev = some d →
      (Prestamo.save hoy cfg p).fecha_max_dev = some d) := by
  constructor
  · intro h
    unfold Prestamo.save
    by_cases hc : p.recibio.isSome && p.fecha_dev.isNone <;> simp [h, hc]
  · intro d h
    rw [Prestamo.save_fecha_max_dev_of_isSome hoy cfg p (by simp [h]), h]

/-- C6 witness: with a three-day grace period, saving on day 10 with no due
date yields due date 13, while a supplied due date 99 is kept. -/
theorem C6_due_date_witness :
    (Prestamo.save 10 cfg3 prestamoFresh).fecha_max_dev = some 13 ∧
    (Prestamo.save 10 cfg3 prestamoFreshDated).fecha_max_dev = some 99 := by
  constructor
  · have h := (C6_due_date 10 cfg3 prestamoFresh).1 rfl
    simpa using h
  · exact (C6_due_date 10 cfg3 prestamoFreshDated).2 99 rfl

/-- C7: a Copy saved without a primary key is assigned copy number equal to
the maximum existing copy number of its Book (0 when the Book has no
copies) plus 1. -/
theorem C7_copy_numbering (existing : List Int) (e : Ejemplar)
    (h : e.pk = none) :
    (Ejemplar.save existing e).nro_ejemplar = (existing.max?).getD 0 + 1 := by
  simp [Ejemplar.save, aggregateMaxNro, h]

/-- C7 witness: existing numbers {1,2,3} yield 4, and a book whose copies
were all deleted (no existing numbers) yields 1. -/
theorem C7_copy_numbering_witness :
    (Ejemplar.save [1, 2, 3] ⟨none, "b", 0⟩).nro_ejemplar = 4 ∧
    (Ejemplar.save [] ⟨none, "b", 0⟩).nro_ejemplar = 1 := by
  constructor
  · have h := C7_copy_numbering [1, 2, 3] ⟨none, "b", 0⟩ rfl
    simpa using h
  · have h := C7_copy_numbering [] ⟨none, "b", 0⟩ rfl
    simpa using h

/-- C10: for a Copy saved without a primary key, the stored copy number is
independent of the `nro_ejemplar` value the caller supplied. -/
theorem C10_supplied_number_ignored (existing : List Int) (b : String)
    (pk : Option Nat) (n1 n2 : Int) (h : pk = none) :
    (Ejemplar.save existing ⟨pk, b, n1⟩).nro_ejemplar =
      (Ejemplar.save existing ⟨pk, b, n2⟩).nro_ejemplar := by
  subst h
  simp [Ejemplar.save]

/-- C10 witness: a caller-supplied number 42 and a caller-supplied number 0
both end up stored as 6 when the book's maximum existing number is 5. -/
theorem C10_supplied_number_ignored_witness :
    (Ejemplar.save [5] ⟨none, "b", 42⟩).nro_ejemplar =
      (Ejemplar.save [5] ⟨none, "b", 0⟩).nro_ejemplar ∧
    (Ejemplar.save [5] ⟨none, "b", 0⟩).nro_ejemplar = 6 := by
  refine ⟨C10_supplied_number_ignored [5] "b" none 42 0 rfl, ?_⟩
  simp [Ejemplar.save, aggregateMaxNro]

/-- C5: a single non-creating save of a Loan with no return date and a
receiving librarian present sets the return date to today in that same
save, and increments the Book's `remanente` by exactly 1. -/
theorem C5_return_save (hoy : Int) (cfg : Configuracion) (p : Prestamo)
    (libro : Libro) (hdev : p.fecha_dev = none) (hrec : p.recibio.isSome = true) :
    (updatePrestamo hoy cfg p libro).1.fecha_dev = some hoy ∧
    (updatePrestamo hoy cfg p libro).2.remanente = libro.remanente + 1 := by
  have hsave : (Prestamo.save hoy cfg p).fecha_dev = some hoy := by
    unfold Prestamo.save
    by_cases hmax : p.fecha_max_dev.isNone <;> simp [hmax, hdev, hrec]
  constructor
  · simpa [updatePrestamo] using hsave
  · simp [updatePrestamo, act_prestamo, hsave]

/-- C5 witness: saving the open loan on day 7 against a book with 2
available copies stamps return date 7 and leaves 3 available copies. -/
theorem C5_return_save_witness :
    (updatePrestamo 7 cfg3 prestamoOpenRecibido libroSample).1.fecha_dev = some 7 ∧
    (updatePrestamo 7 cfg3 prestamoOpenRecibido libroSample).2.remanente = 3 := by
  have h := C5_return_save 7 cfg3 prestamoOpenRecibido libroSample rfl rfl
  simpa using h

/-- C9: non-creating saves of an already-returned Loan are not idempotent
for availability: `n` repeated saves increase the Book's `remanente` by
`n`. -/
theorem C9_resave_not_idempotent (hoy : Int) (cfg : Configuracion)
    (p : Prestamo) (libro : Libro) (n : Nat) (h : p.fecha_dev.isSome = true) :
    (iterSaves hoy cfg n p libro).2.remanente = libro.remanente + n := by
  suffices hs : (iterSaves hoy cfg n p libro).1.fecha_dev.isSome = true ∧
      (iterSaves hoy cfg n p libro).2.remanente = libro.remanente + n from hs.2
  induction n with
  | zero => simpa [iterSaves] using h
  | succ m ih =>
      have hstep := Prestamo.save_fecha_dev_of_isSome hoy cfg
        (iterSaves hoy cfg m p libro).1 ih.1
      constructor
      · simp [iterSaves, updatePrestamo, hstep, ih.1]
      · simp only [iterSaves, updatePrestamo, act_prestamo, hstep, ih.1]
        simp [ih.2]
        ring

/-- C9 witness: three repeated saves of a returned loan raise `remanente`
from 2 to 5. -/
theorem C9_resave_not_idempotent_witness :
    (iterSaves 7 cfg3 3 prestamoReturned libroSample).2.remanente = 5 := by
  have h := C9_resave_not_idempotent 7 cfg3 prestamoReturned libroSample 3 rfl
  simpa using h

/-- C2 counterexample: a Loan created with a receiving librarian present
has its return date become set during that creating save, yet the Book's
`remanente` is decremented (5 becomes 4), not incremented to 6 as the claim
requires. -/
theorem C2_counterexample :
    (createPrestamo 7 cfg3 prestamoOpenRecibido
      (⟨"9780306406157", "Titulo", 100, 7, 5⟩ : Libro)).1.fecha_dev = some 7 ∧
    ¬ ((createPrestamo 7 cfg3 prestamoOpenRecibido
      (⟨"9780306406157", "Titulo", 100, 7, 5⟩ : Libro)).2.remanente = 5 + 1) := by
  constructor
  · rfl
  · decide

/-- C2 amended: only a NON-creating save after which the return date is set
increments the Book's `remanente` by 1; on a creating save `remanente` is
decremented by 1 even when the return date becomes set during that save. -/
theorem C2_return_increments (hoy : Int) (cfg : Configuracion) (p : Prestamo)
    (libro : Libro) :
    ((updatePrestamo hoy cfg p libro).1.fecha_dev.isSome = true →
      (updatePrestamo hoy cfg p libro).2.remanente = libro.remanente + 1) ∧
    (createPrestamo hoy cfg p libro).2.remanente = libro.remanente - 1 := by
  constructor
  · intro h
    have hs : (Prestamo.save hoy cfg p).fecha_dev.isSome = true := by
      simpa [updatePrestamo] using h
    simp [updatePrestamo, act_prestamo, hs]
  · rfl

/-- C2 amended witness: re-saving a returned loan raises `remanente` from 2
to 3, and creating a fresh loan lowers it from 2 to 1. -/
theorem C2_return_increments_witness :
    (updatePrestamo 7 cfg3 prestamoReturned libroSample).2.remanente = 3 ∧
    (createPrestamo 7 cfg3 prestamoFresh libroSample).2.remanente = 1 := by
  constructor
  · have h := (C2_return_increments 7 cfg3 prestamoReturned libroSample).1 rfl
    simpa using h
  · have h := (C2_return_increments 7 cfg3 prestamoFresh libroSample).2
    simpa using h

/-- One guarded step preserves the strengthened invariant. -/
theorem ghostInv_applyOp (hoy : Int) (op : Op) (s : LibState)
    (hg : ghostInv s) (ha : allowedOp op s = true) :
    ghostInv (applyOp hoy op s) := by
  cases op <;>
    simp [applyOp, allowedOp, ghostInv, cant_ejemp_disp, act_prestamo] at * <;>
    omega

/-- A guarded trace preserves the strengthened invariant. -/
theorem ghostInv_runOps (hoy : Int) (ops : List Op) (s : LibState)
    (hg : ghostInv s) (ha : allowedTrace hoy ops s = true) :
    ghostInv (runOps hoy ops s) := by
  induction ops generalizing s with
  | nil => simpa [runOps] using hg
  | cons op rest ih =>
      rw [allowedTrace, Bool.and_eq_true] at ha
      exact ih (applyOp hoy op s) (ghostInv_applyOp hoy op s hg ha.1) ha.2

/-- Every prefix of a guarded trace is itself guarded. -/
theorem allowedTrace_append_left (hoy : Int) (pre suf : List Op) (s : LibState)
    (ha : allowedTrace hoy (pre ++ suf) s = true) :
    allowedTrace hoy pre s = true := by
  induction pre generalizing s with
  | nil => rfl
  | cons op rest ih =>
      rw [List.cons_append, allowedTrace, Bool.and_eq_true] at ha
      rw [allowedTrace, Bool.and_eq_true]
      exact ⟨ha.1, ih (applyOp hoy op s) ha.2⟩

/-- C1 amended: starting from a fresh Book, along any sequence of copy/loan
lifecycle events in which loans are only created and copies only deleted
while an available copy exists, returning saves only happen while an
unreturned loan exists, and no already-returned loan is saved again,
`0 ≤ remanente ≤ cant_ej` holds after every operation of the sequence
(i.e. after every prefix). -/
theorem C1_counter_invariant (isbn titulo : String) (cant_pag hoy : Int)
    (ops : List Op)
    (ha : allowedTrace hoy ops (initState isbn titulo cant_pag) = true) :
    ∀ pre suf : List Op, ops = pre ++ suf →
      counterInv (runOps hoy pre (initState isbn titulo cant_pag)) := by
  intro pre suf hsplit
  have hpre : allowedTrace hoy pre (initState isbn titulo cant_pag) = true :=
    allowedTrace_append_left hoy pre suf _ (hsplit ▸ ha)
  have hg0 : ghostInv (initState isbn titulo cant_pag) := by
    simp [ghostInv, initState, freshLibro]
  have hg := ghostInv_runOps hoy pre _ hg0 hpre
  unfold ghostInv at hg
  unfold counterInv
  omega

/-- C1 amended witness: the guarded trace create-copy, create-loan,
return-save keeps the invariant at its intermediate prefix
create-copy, create-loan. -/
theorem C1_counter_invariant_witness :
    counterInv (runOps 0 [Op.createCopy, Op.createLoan]
      (initState "9780306406157" "Titulo" 100)) :=
  C1_counter_invariant "9780306406157" "Titulo" 100 0
    [Op.createCopy, Op.createLoan, Op.returnSave] (by decide)
    [Op.createCopy, Op.createLoan] [Op.returnSave] rfl

/-- C1 counterexample: the unguarded sequence create-copy, create-loan,
return-save, save-the-returned-loan-again — every step a copy/loan
create/save the code permits — leaves the fresh book with `remanente = 2`
and `cant_ej = 1`, violating `remanente ≤ cant_ej`. -/
theorem C1_counterexample :
    ¬ counterInv (runOps 0
      [Op.createCopy, Op.createLoan, Op.returnSave, Op.resaveReturned]
      (initState "9780306406157" "Titulo" 100)) := by
  decide

/-- Numeric characterization of the ASCII decimal-digit test. -/
theorem isDigit_iff_toNat (c : Char) :
    c.isDigit = true ↔ 48 ≤ c.toNat ∧ c.toNat ≤ 57 := by
  simp [Char.isDigit, UInt32.le_def, Char.toNat, BitVec.le_def, UInt32.toNat]

/-- On an ASCII character the Python digit test coincides with the ASCII
decimal-digit test: every non-ASCII range of `py_char_isdigit` lies above
code point 128. -/
theorem py_char_isdigit_of_ascii (c : Char) (h : c.toNat < 128) :
    py_char_isdigit c = c.isDigit := by
  have hh := isDigit_iff_toNat c
  unfold py_char_isdigit
  cases hd : c.isDigit with
  | true =>
      simp [hd] at hh
      simp
      omega
  | false =>
      simp [hd] at hh
      simp
      omega

/-- On an all-ASCII character list the two digit tests agree. -/
theorem all_py_isdigit_of_ascii (l : List Char)
    (h : l.all (fun c => c.toNat < 128) = true) :
    l.all py_char_isdigit = l.all Char.isDigit := by
  induction l with
  | nil => rfl
  | cons c cs ih =>
      rw [List.all_cons, Bool.and_eq_true] at h
      rw [List.all_cons, List.all_cons,
        py_char_isdigit_of_ascii c (by simpa using h.1), ih h.2]

/-- C8 counterexample: the 13-character string of superscript twos is
accepted by the validator — Python `isdigit` is true of the superscript
two — although that character is not a decimal digit, so the claimed
equivalence "rejected iff length is not 13 or some character is not a
decimal digit" is false at this input. -/
theorem C8_counterexample :
    validate_isbn13 "²²²²²²²²²²²²²" = none ∧
    ¬ ((validate_isbn13 "²²²²²²²²²²²²²").isSome = true ↔
      ¬ (("²²²²²²²²²²²²²" : String).length = 13 ∧
         ("²²²²²²²²²²²²²" : String).data.all Char.isDigit = true)) := by
  decide

/-- C8 amended: for every string of ASCII characters, ISBN validation
errors exactly on the strings whose length is not 13 or that contain a
non-digit character, every 13-digit string is accepted, and any error
message produced contains the offending value. (Outside ASCII the
equivalence fails, since Python `isdigit` also accepts other Unicode digit
characters.) -/
theorem C8_isbn_validation_ascii (value : String)
    (hascii : value.data.all (fun c => c.toNat < 128) = true) :
    ((validate_isbn13 value).isSome = true ↔
      ¬ (value.length = 13 ∧ value.data.all Char.isDigit = true)) ∧
    (∀ e : String, validate_isbn13 value = some e →
      ∃ pre post : List Char, e.data = pre ++ value.data ++ post) := by
  have hsd : str_isdigit value = (value.length != 0 && value.data.all Char.isDigit) := by
    unfold str_isdigit
    rw [all_py_isdigit_of_ascii value.data hascii]
  constructor
  · by_cases hl : value.length = 13 <;>
      cases hall : value.data.all Char.isDigit <;>
        simp [validate_isbn13, hsd, hl, hall]
  · intro e he
    unfold validate_isbn13 at he
    split at he
    · have hmsg : ("El ISBN debe contener exactamente 13 dígitos. \"" ++ value
          ++ "\" no es válido.") = e := by
        simpa using he
      refine ⟨("El ISBN debe contener exactamente 13 dígitos. \"" : String).data,
        ("\" no es válido." : String).data, ?_⟩
      rw [← hmsg]
      simp
    · exact absurd he (by simp)

/-- C8 amended witness: a 12-digit ASCII string is rejected, a 13-digit
ASCII string is accepted, and the error message for the rejected string
contains it. -/
theorem C8_isbn_validation_ascii_witness :
    (validate_isbn13 "978030640615").isSome = true ∧
    validate_isbn13 "9780306406157" = none ∧
    ∃ pre post : List Char,
      ("El ISBN debe contener exactamente 13 dígitos. \"978030640615\" no es válido.").data =
        pre ++ ("978030640615" : String).data ++ post := by
  refine ⟨(C8_isbn_validation_ascii "978030640615" (by decide)).1.mpr (by decide),
    by decide, ?_⟩
  exact (C8_isbn_validation_ascii "978030640615" (by decide)).2
    ("El ISBN debe contener exactamente 13 dígitos. \"978030640615\" no es válido.")
    (by decide)

end Biblioteca
